import Mathlib

/-!
# Verification of the vulkan-mandelbrot example program

Shallow embedding of `src/main.rs`: a single-file vulkano program that
selects a physical device whose lowercased name contains "quadro", picks the
first compute-capable queue family, allocates a 2048x2048 RGBA8 storage image
and a host-visible staging buffer of 2048*2048*4 zero bytes, records a
dispatch of [2048/8, 2048/8, 1] workgroups of a fractal compute shader
(local size 8x8x1) followed by an image-to-buffer copy, submits the one-time
command buffer once, waits on the fence, and only then reads the buffer back
and saves it as a PNG.
-/

namespace VulkanMandelbrot

/-- `const NPIXELS_DIM0: u32 = 2048;` (main.rs line 72). -/
def NPIXELS_DIM0 : Nat := 2048

/-- `const NPIXELS_DIM1: u32 = 2048;` (main.rs line 73). -/
def NPIXELS_DIM1 : Nat := 2048

/-- The shader's declared local workgroup size,
`layout(local_size_x = 8, local_size_y = 8, local_size_z = 1)`
(main.rs line 27). -/
def localSize : Nat × Nat × Nat := (8, 8, 1)

/-- The workgroup grid passed to `builder.dispatch`
(`[NPIXELS_DIM0 / 8, NPIXELS_DIM1 / 8, 1]`, main.rs line 157). -/
def dispatchWorkgroups : Nat × Nat × Nat :=
  (NPIXELS_DIM0 / 8, NPIXELS_DIM1 / 8, 1)

/-- The extent of the dispatched-over resource: the 2048x2048 image, with a
single slice in the third dimension. -/
def imageExtent : Nat × Nat × Nat := (NPIXELS_DIM0, NPIXELS_DIM1, 1)

/-- vulkano's `ImageDimensions` enum (the variants used for image creation). -/
inductive ImageDimensionsModel where
  | dim1d (width arrayLayers : Nat)
  | dim2d (width height arrayLayers : Nat)
  | dim3d (width height depth : Nat)
deriving DecidableEq

/-- The number of array layers of an `ImageDimensions` value (vulkano's
`array_layers()`; a 3D image has a single layer). -/
def arrayLayersOf : ImageDimensionsModel → Nat
  | .dim1d _ l => l
  | .dim2d _ _ l => l
  | .dim3d _ _ _ => 1

/-- Whether a dimensions value denotes a 2D image. -/
def isDim2d : ImageDimensionsModel → Bool
  | .dim2d _ _ _ => true
  | _ => false

/-- The dimensions of every image the program creates: the single
`StorageImage::new` call passes
`ImageDimensions::Dim2d { width: NPIXELS_DIM0, height: NPIXELS_DIM1,
array_layers: 1 }` (main.rs lines 116-122). -/
def allocatedImageDims : List ImageDimensionsModel :=
  [.dim2d NPIXELS_DIM0 NPIXELS_DIM1 1]

/-- The length of the iterator range the staging buffer is built from:
`0 .. NPIXELS_DIM0*NPIXELS_DIM1*4` (main.rs line 146). -/
def bufferElemCount : Nat := NPIXELS_DIM0 * NPIXELS_DIM1 * 4

/-- The element sequence the staging buffer is created from:
`(0 .. NPIXELS_DIM0*NPIXELS_DIM1*4).map(|_| 0u8)` (main.rs line 146). -/
def bufferInit : List Nat :=
  (List.range bufferElemCount).map (fun _ => 0)

/-- Size in bytes of one buffer element (`u8`). -/
def u8Size : Nat := 1

/-- Rust's `u8::to_ascii_lowercase` on one character: ASCII uppercase letters
map to lowercase, everything else is unchanged. -/
def toAsciiLower (c : Char) : Char :=
  if 'A' ≤ c ∧ c ≤ 'Z' then Char.ofNat (c.toNat + 32) else c

/-- `str::to_ascii_lowercase` (main.rs line 94), character by character. -/
def lowerString (s : List Char) : List Char := s.map toAsciiLower

/-- `str::contains(pat)`: whether `pat` occurs as a contiguous substring. -/
def isSubstrOf (pat : List Char) : List Char → Bool
  | [] => pat.isEmpty
  | c :: rest => pat.isPrefixOf (c :: rest) || isSubstrOf pat rest

/-- The device predicate of main.rs lines 91-95: the device name, lowercased
(ASCII), contains the substring "quadro". -/
def deviceNameMatches (name : List Char) : Bool :=
  isSubstrOf ("quadro".toList) (lowerString name)

/-- Physical-device selection (main.rs lines 89-96):
`PhysicalDevice::enumerate(..).find(|dev| ...)` over the enumerated device
names; `.expect(..)` aborts on `None`. -/
def selectPhysicalDeviceByName (names : List (List Char)) :
    Option (List Char) :=
  names.find? deviceNameMatches

/-- A vulkano queue family, as far as this program inspects it. -/
structure QueueFamilyModel where
  supportsGraphics : Bool
  supportsCompute : Bool
deriving DecidableEq

/-- Queue-family selection (main.rs lines 99-102):
`physical_device.queue_families().find(|&q| q.supports_compute())`. -/
def findComputeQueueFamily (fams : List QueueFamilyModel) :
    Option QueueFamilyModel :=
  fams.find? (fun q => q.supportsCompute)

/-- The fixed queue priority passed to `Device::new`
(`[(queue_family, 0.5)]`, main.rs line 110); the f32 literal 0.5 is exactly
the rational 1/2. -/
def queuePriority : ℚ := 1/2

/-- The queue list passed to `Device::new` (main.rs lines 105-112): exactly
one queue, the selected compute family at priority 0.5; `None` when queue
family selection failed (in the program, `.expect(..)` has aborted before
this point). -/
def deviceQueueRequest (fams : List QueueFamilyModel) :
    Option (List (QueueFamilyModel × ℚ)) :=
  (findComputeQueueFamily fams).map (fun f => [(f, queuePriority)])

/-- vulkano's `CommandBufferUsage` enum. -/
inductive CommandBufferUsageModel where
  | oneTimeSubmit
  | multipleSubmit
  | simultaneousUse
deriving DecidableEq

/-- The usage the program passes to `AutoCommandBufferBuilder::primary`
(`CommandBufferUsage::OneTimeSubmit`, main.rs line 151). -/
def commandBufferUsage : CommandBufferUsageModel := .oneTimeSubmit

/-- Whether Vulkan permits submitting a command buffer recorded with this
usage more than once (one-time-submit recordings may be submitted exactly
once; a second submission is an error). -/
def allowsResubmission : CommandBufferUsageModel → Bool
  | .oneTimeSubmit => false
  | .multipleSubmit => true
  | .simultaneousUse => true

/-- The host-side actions of `main` (main.rs lines 71-176), in program
order. `main` is straight-line code: no branch, loop or early return other
than the `.expect`/`.unwrap` aborts, so its behavior is this one sequence. -/
inductive Event where
  | createInstance
  | enumerateAndPrintDevices
  | selectDevice
  | pickQueueFamily
  | createDevice
  | createImage
  | loadShader
  | createPipeline
  | createDescriptorSet
  | createStagingBuffer
  | beginCommandBuffer
  | recordDispatch
  | recordCopyImageToBuffer
  | buildCommandBuffer
  | executeCommandBuffer
  | signalFenceAndFlush
  | fenceWait
  | readBuffer
  | constructImageFromRaw
  | savePng
deriving DecidableEq

/-- The trace of `main`: one entry per host action, in source order
(main.rs lines 75, 82, 89, 99, 105, 116, 125, 127, 136, 144, 150, 154, 160,
162, 166, 168, 168, 171, 172, 175). -/
def mainTrace : List Event :=
  [.createInstance, .enumerateAndPrintDevices, .selectDevice,
   .pickQueueFamily, .createDevice, .createImage, .loadShader,
   .createPipeline, .createDescriptorSet, .createStagingBuffer,
   .beginCommandBuffer, .recordDispatch, .recordCopyImageToBuffer,
   .buildCommandBuffer, .executeCommandBuffer, .signalFenceAndFlush,
   .fenceWait, .readBuffer, .constructImageFromRaw, .savePng]

/-- A width x height RGBA8 image view over a flat byte container, as built
by `ImageBuffer::<Rgba<u8>, _>::from_raw` (main.rs lines 172-174). -/
structure RgbaImageView where
  width : Nat
  height : Nat
  data : List Nat
deriving DecidableEq

/-- `ImageBuffer::<Rgba<u8>, _>::from_raw(w, h, buf)` (image crate, called
at main.rs line 172): succeeds exactly when the container holds at least
`w * h * 4` samples (4 one-byte channels per pixel), wrapping the container
directly with no stride adjustment; returns `None` otherwise. -/
def fromRaw (w h : Nat) (data : List Nat) : Option RgbaImageView :=
  if w * h * 4 ≤ data.length then some ⟨w, h, data⟩ else none

/-- Byte offset of channel `c` of pixel `(x, y)` in a row-major, tightly
packed, 4-bytes-per-pixel layout of a width-`w` image. -/
def pixelByteIndex (w x y c : Nat) : Nat := (y * w + x) * 4 + c

/-- Modelled from the spec: `copy_image_to_buffer` (main.rs line 160)
linearizes the image into the buffer "row-major, 4 bytes per pixel for
RGBA8, tightly packed, no padding" — pixel `p` in row-major order
(`p = y * w + x`) contributes its byte list at offset `4 * p`. -/
def linearizeImage (w h : Nat) (texel : Nat → Nat → List Nat) : List Nat :=
  (List.range (w * h)).flatMap (fun p => texel (p % w) (p / w))

/-- Conversion of a floating-point channel value to the 8-bit unorm storage
format `R8G8B8A8Unorm` (main.rs line 121): clamp to [0, 1], scale by 255,
round to the nearest integer. -/
def unorm8 (x : ℚ) : Nat := (round (255 * max 0 (min 1 x))).toNat

/-- The texel each shader invocation stores:
`vec4 to_write = vec4(get_rgb(i), 1.0); imageStore(img, ..., to_write)`
(main.rs lines 64-65), quantized channel-wise to RGBA8 unorm. The alpha
channel is the literal 1.0 regardless of the computed rgb. -/
def shaderTexel (rgb : ℚ × ℚ × ℚ) : List Nat :=
  [unorm8 rgb.1, unorm8 rgb.2.1, unorm8 rgb.2.2, unorm8 1]

/-- The f32 literal `0.005` of the shader loop (main.rs line 53), as a
numerator over 2^31: `0.005f32` rounds to 10737418 / 2^31. -/
def stepC : Nat := 10737418

/-- The f32 literal `1.0` (the loop bound, main.rs line 53) as a numerator
over 2^31. -/
def one31 : Nat := 2 ^ 31

/-- The binade shift of a positive f32 significand sum: for a value
`s / 2^31` with `s < 2^33`, the number of low bits that must be rounded
away to fit a 24-bit significand (0 when the value is below 2^-8 + 2^24
units, i.e. already exact). -/
def roundShift (s : Nat) : Nat :=
  if s < 2 ^ 24 then 0
  else if s < 2 ^ 25 then 1
  else if s < 2 ^ 26 then 2
  else if s < 2 ^ 27 then 3
  else if s < 2 ^ 28 then 4
  else if s < 2 ^ 29 then 5
  else if s < 2 ^ 30 then 6
  else if s < 2 ^ 31 then 7
  else if s < 2 ^ 32 then 8
  else 9

/-- IEEE-754 binary32 round-to-nearest-even of a nonnegative exact sum
`s / 2^31` (valid for the magnitudes this loop produces, all below 2^2):
keep the top 24 significand bits, rounding ties to even. -/
def roundF32 (s : Nat) : Nat :=
  let k := roundShift s
  if k = 0 then s
  else
    let q := s / 2 ^ k
    let r := s % 2 ^ k
    let half := 2 ^ (k - 1)
    (if r < half then q else if half < r then q + 1 else q + q % 2) * 2 ^ k

/-- f32 addition on numerators over 2^31: exact sum, then binary32
rounding. This models the shader's `i += 0.005` (main.rs line 53). -/
def fadd32 (a b : Nat) : Nat := roundF32 (a + b)

/-- The loop counter `i` after `n` executions of `i += 0.005` starting from
`i = 0.0`, in f32 arithmetic (numerator over 2^31). -/
def iterI : Nat → Nat
  | 0 => 0
  | n + 1 => fadd32 (iterI n) stepC

/-- The shader's escape-time loop (main.rs lines 53-62), with the
pixel-dependent escape test `length(z) > 4.0` abstracted as an oracle
`esc k` (whether the iterate escapes on the k-th body execution): counts
body executions of `for (i = 0.0; i < 1.0; i += 0.005) { ...; if (escape)
break; }`, with `fuel` bounding the recursion depth. -/
def loopGo (esc : Nat → Bool) : Nat → Nat → Nat → Nat
  | 0, _, _ => 0
  | fuel + 1, i, k =>
    if i < one31 then
      1 + (if esc k then 0 else loopGo esc fuel (fadd32 i stepC) (k + 1))
    else 0

/-- Number of body executions of the shader loop for a pixel whose escape
behavior is `esc`. Fuel 202 exceeds the loop's actual trip count. -/
def bodyCount (esc : Nat → Bool) : Nat := loopGo esc 202 0 0

end VulkanMandelbrot

namespace VulkanMandelbrot

/-- **C2**: the dispatch workgroup grid exactly covers the image extent:
the program dispatches [2048/8, 2048/8, 1] = [256, 256, 1] workgroups of
local size 8x8x1, and 256 * 8 = 2048 in each of the first two dimensions
(and 1 * 1 = 1 in the third), so workgroups * local_size equals the
resource extent with no under- or over-coverage. -/
theorem dispatch_grid_exactly_covers_image :
    dispatchWorkgroups = (256, 256, 1) ∧
    dispatchWorkgroups.1 * localSize.1 = imageExtent.1 ∧
    dispatchWorkgroups.2.1 * localSize.2.1 = imageExtent.2.1 ∧
    dispatchWorkgroups.2.2 * localSize.2.2 = imageExtent.2.2 := by
  decide

/-- **C6**: every image the program allocates is a 2D image with exactly one
array layer. -/
theorem every_image_is_2d_single_layer :
    ∀ d ∈ allocatedImageDims, isDim2d d = true ∧ arrayLayersOf d = 1 := by
  decide

/-- Witness for C6: the program's one image creation is in the list and the
theorem applies to it. -/
theorem every_image_is_2d_single_layer_witness :
    isDim2d (.dim2d NPIXELS_DIM0 NPIXELS_DIM1 1) = true ∧
    arrayLayersOf (.dim2d NPIXELS_DIM0 NPIXELS_DIM1 1) = 1 :=
  every_image_is_2d_single_layer (.dim2d NPIXELS_DIM0 NPIXELS_DIM1 1)
    (by decide)

/-- **C7**: the host-visible staging buffer is created with
element_count * element_size = 2048 * 2048 * 4 * 1 bytes — exactly
width * height * 4 one-byte elements — and its caller-supplied generator
initializes every element to zero before submission. -/
theorem staging_buffer_size_and_zero_init :
    bufferInit.length = 2048 * 2048 * 4 ∧
    bufferInit.length * u8Size = NPIXELS_DIM0 * NPIXELS_DIM1 * 4 ∧
    ∀ b ∈ bufferInit, b = 0 := by
  refine ⟨?_, ?_, ?_⟩
  · unfold bufferInit
    rw [List.length_map, List.length_range]
    norm_num [bufferElemCount, NPIXELS_DIM0, NPIXELS_DIM1]
  · rw [u8Size, Nat.mul_one]
    unfold bufferInit
    rw [List.length_map, List.length_range, bufferElemCount]
  · intro b hb
    unfold bufferInit at hb
    rw [List.mem_map] at hb
    obtain ⟨a, -, h⟩ := hb
    exact h.symm

/-- `List.find?` returns the first element satisfying the predicate: the
result satisfies it, occurs in the list, and every earlier element fails it. -/
theorem find?_first_match {α : Type} (p : α → Bool) :
    ∀ (l : List α) (a : α), l.find? p = some a →
      p a = true ∧ ∃ i, l.get? i = some a ∧
        ∀ j, j < i → ∀ b, l.get? j = some b → p b = false := by
  intro l
  induction l with
  | nil => intro a h; simp at h
  | cons x t ih =>
    intro a h
    by_cases hp : p x = true
    · rw [List.find?_cons_of_pos _ hp] at h
      obtain rfl : x = a := by injection h
      exact ⟨hp, 0, rfl, fun j hj => by omega⟩
    · rw [List.find?_cons_of_neg _ hp] at h
      obtain ⟨hpa, i, hget, hprev⟩ := ih a h
      refine ⟨hpa, i + 1, hget, ?_⟩
      intro j hj b hb
      match j with
      | 0 =>
        obtain rfl : x = b := by injection hb
        exact Bool.eq_false_iff.mpr hp
      | j' + 1 =>
        exact hprev j' (by omega) b hb

/-- **C4**: device selection enumerates all physical devices and returns the
first whose ASCII-lowercased name contains the substring "quadro"; if no
enumerated device matches, selection returns `none` (and the program aborts).
The match is case-insensitive: "NVIDIA Quadro P620" matches, a name without
"quadro" does not. -/
theorem device_selection_first_quadro_match :
    (∀ names, (∀ n ∈ names, deviceNameMatches n = false) →
      selectPhysicalDeviceByName names = none) ∧
    (∀ names n, selectPhysicalDeviceByName names = some n →
      deviceNameMatches n = true ∧ ∃ i, names.get? i = some n ∧
        ∀ j, j < i → ∀ m, names.get? j = some m →
          deviceNameMatches m = false) ∧
    deviceNameMatches ("NVIDIA Quadro P620".toList) = true ∧
    deviceNameMatches ("NVIDIA GeForce RTX 3080".toList) = false := by
  refine ⟨?_, ?_, by decide, by decide⟩
  · intro names hnone
    rw [selectPhysicalDeviceByName, List.find?_eq_none]
    intro n hn
    rw [hnone n hn]
    decide
  · intro names n h
    exact find?_first_match deviceNameMatches names n h

/-- Witness for C4: on a concrete enumeration with no matching name the
selection fails, and on one holding a Quadro device the first match is
returned with the earlier non-matching device rejected. -/
theorem device_selection_first_quadro_match_witness :
    selectPhysicalDeviceByName [("Intel HD Graphics 630".toList)] = none ∧
    (deviceNameMatches ("NVIDIA Quadro P620".toList) = true ∧
      ∃ i, [("Intel HD Graphics 630".toList),
            ("NVIDIA Quadro P620".toList)].get? i =
          some ("NVIDIA Quadro P620".toList) ∧
        ∀ j, j < i →
          ∀ m, [("Intel HD Graphics 630".toList),
                ("NVIDIA Quadro P620".toList)].get? j = some m →
            deviceNameMatches m = false) :=
  ⟨device_selection_first_quadro_match.1
      [("Intel HD Graphics 630".toList)] (by decide),
   device_selection_first_quadro_match.2.1
      [("Intel HD Graphics 630".toList), ("NVIDIA Quadro P620".toList)]
      ("NVIDIA Quadro P620".toList) (by decide)⟩

/-- **C5**: queue selection scans the device's queue families and returns
the first that supports compute, and the device is created with exactly that
one queue at fixed priority 0.5 (= 1/2); if no family supports compute,
selection fails. -/
theorem queue_selection_first_compute_family :
    (∀ fams, (∀ q ∈ fams, q.supportsCompute = false) →
      findComputeQueueFamily fams = none ∧ deviceQueueRequest fams = none) ∧
    (∀ fams f, findComputeQueueFamily fams = some f →
      f.supportsCompute = true ∧
      (∃ i, fams.get? i = some f ∧
        ∀ j, j < i → ∀ g, fams.get? j = some g →
          g.supportsCompute = false) ∧
      deviceQueueRequest fams = some [(f, 1/2)]) ∧
    queuePriority = 1/2 := by
  refine ⟨?_, ?_, rfl⟩
  · intro fams hnone
    have hfind : findComputeQueueFamily fams = none := by
      rw [findComputeQueueFamily, List.find?_eq_none]
      intro q hq
      rw [hnone q hq]
      decide
    exact ⟨hfind, by rw [deviceQueueRequest, hfind]; rfl⟩
  · intro fams f h
    rw [findComputeQueueFamily] at h
    obtain ⟨hc, hfirst⟩ :=
      find?_first_match (fun q => q.supportsCompute) fams f h
    exact ⟨hc, hfirst, by
      rw [deviceQueueRequest, findComputeQueueFamily, h]; rfl⟩

/-- Witness for C5: on a concrete family list whose first member lacks
compute support, selection returns the second family and the device request
holds exactly that one queue at priority 1/2; on a list with no compute
family, selection fails. -/
theorem queue_selection_first_compute_family_witness :
    (findComputeQueueFamily [⟨true, false⟩] = none ∧
      deviceQueueRequest [⟨true, false⟩] = none) ∧
    ((⟨true, true⟩ : QueueFamilyModel).supportsCompute = true ∧
      (∃ i, [(⟨true, false⟩ : QueueFamilyModel), ⟨true, true⟩].get? i =
          some ⟨true, true⟩ ∧
        ∀ j, j < i →
          ∀ g, [(⟨true, false⟩ : QueueFamilyModel), ⟨true, true⟩].get? j =
              some g → g.supportsCompute = false) ∧
      deviceQueueRequest [⟨true, false⟩, ⟨true, true⟩] =
        some [(⟨true, true⟩, 1/2)]) :=
  ⟨queue_selection_first_compute_family.1 [⟨true, false⟩] (by decide),
   queue_selection_first_compute_family.2.1 [⟨true, false⟩, ⟨true, true⟩]
      ⟨true, true⟩ (by decide)⟩

/-- **C1**: the host reads the readback buffer only after the fence wait
returns: the buffer read occurs in `main`'s trace, a fence wait occurs, and
every occurrence of the buffer read is strictly preceded by an occurrence of
the fence wait — the mapped read never happens before the wait. -/
theorem host_read_only_after_fence_wait :
    Event.readBuffer ∈ mainTrace ∧
    Event.fenceWait ∈ mainTrace ∧
    ∀ i : Fin mainTrace.length, mainTrace.get i = Event.readBuffer →
      ∃ j : Fin mainTrace.length, (j : Nat) < (i : Nat) ∧
        mainTrace.get j = Event.fenceWait := by
  decide

/-- Witness for C1: at the concrete position of the buffer read (index 17),
a fence wait occurs strictly earlier. -/
theorem host_read_only_after_fence_wait_witness :
    ∃ j : Fin mainTrace.length, (j : Nat) < 17 ∧
      mainTrace.get j = Event.fenceWait :=
  host_read_only_after_fence_wait.2.2 ⟨17, by decide⟩ (by decide)

/-- **C3**: the command buffer is built with one-time-submit usage, the
trace holds exactly one execute (submission) of it, and one-time-submit
usage does not permit a second submission of the same recording. -/
theorem single_one_time_submission :
    commandBufferUsage = CommandBufferUsageModel.oneTimeSubmit ∧
    mainTrace.count Event.executeCommandBuffer = 1 ∧
    allowsResubmission commandBufferUsage = false := by
  decide

/-- Witness for C7: the zero byte is an element of the buffer contents and is
zero. -/
theorem staging_buffer_size_and_zero_init_witness : (0 : Nat) = 0 :=
  staging_buffer_size_and_zero_init.2.2 0
    (by
      rw [bufferInit, List.mem_map]
      exact ⟨0, by
        rw [List.mem_range]
        norm_num [bufferElemCount, NPIXELS_DIM0, NPIXELS_DIM1], rfl⟩)

/-- Indexing into a flat-map whose pieces all have length `L`: the byte at
offset `L * i + c` comes from channel `c` of the `i`-th piece. -/
theorem flatMap_get?_fixed_len {α : Type} (f : Nat → List α) (L : Nat)
    (hf : ∀ p, (f p).length = L) :
    ∀ (l : List Nat) (i a c : Nat), l.get? i = some a → c < L →
      (l.flatMap f).get? (L * i + c) = (f a).get? c := by
  intro l
  induction l with
  | nil => intro i a c h _; simp at h
  | cons x t ih =>
    intro i a c h hc
    match i with
    | 0 =>
      obtain rfl : x = a := by
        rw [List.get?_cons_zero] at h
        injection h
      rw [List.flatMap_cons, Nat.mul_zero, Nat.zero_add]
      exact List.get?_append (by rw [hf]; exact hc)
    | i' + 1 =>
      rw [List.get?_cons_succ] at h
      rw [List.flatMap_cons, Nat.mul_succ]
      have hlen : (f x).length ≤ L * i' + L + c := by
        rw [hf]; omega
      rw [List.get?_append_right hlen, hf]
      have harith : L * i' + L + c - L = L * i' + c := by omega
      rw [harith]
      exact ih i' a c h hc

/-- **C8**: the readback view delivered to the host I/O collaborator is
row-major with exactly 4 bytes per pixel, tightly packed with no padding:
the buffer holds exactly width * height * 4 bytes, `from_raw` consumes it
directly as a 2048 x 2048 RGBA image with no stride adjustment, the
row-major byte-offset map sends every in-range (x, y, channel) inside the
buffer, it is injective (no two channels share a byte: no padding), and a
linearized image of 4-byte texels occupies exactly width * height * 4
bytes. -/
theorem readback_layout_row_major_tight :
    bufferInit.length = NPIXELS_DIM0 * NPIXELS_DIM1 * 4 ∧
    fromRaw NPIXELS_DIM0 NPIXELS_DIM1 bufferInit =
      some ⟨NPIXELS_DIM0, NPIXELS_DIM1, bufferInit⟩ ∧
    (∀ x y c, x < NPIXELS_DIM0 → y < NPIXELS_DIM1 → c < 4 →
      pixelByteIndex NPIXELS_DIM0 x y c < NPIXELS_DIM0 * NPIXELS_DIM1 * 4) ∧
    (∀ x y c x' y' c', x < NPIXELS_DIM0 → y < NPIXELS_DIM1 → c < 4 →
      x' < NPIXELS_DIM0 → y' < NPIXELS_DIM1 → c' < 4 →
      pixelByteIndex NPIXELS_DIM0 x y c =
        pixelByteIndex NPIXELS_DIM0 x' y' c' →
      x = x' ∧ y = y' ∧ c = c') ∧
    (∀ w h texel, (∀ x y, (texel x y : List Nat).length = 4) →
      (linearizeImage w h texel).length = w * h * 4) := by
  have hlen : bufferInit.length = NPIXELS_DIM0 * NPIXELS_DIM1 * 4 := by
    unfold bufferInit
    rw [List.length_map, List.length_range, bufferElemCount]
  refine ⟨hlen, ?_, ?_, ?_, ?_⟩
  · rw [fromRaw, if_pos (le_of_eq hlen.symm)]
  · intro x y c hx hy hc
    simp only [pixelByteIndex, NPIXELS_DIM0, NPIXELS_DIM1] at *
    omega
  · intro x y c x' y' c' hx hy hc hx' hy' hc' heq
    simp only [pixelByteIndex, NPIXELS_DIM0, NPIXELS_DIM1] at *
    omega
  · intro w h texel htex
    rw [linearizeImage, List.length_flatMap]
    have hconst : (List.length ∘ fun p => texel (p % w) (p / w)) =
        fun _ => 4 := funext fun p => htex _ _
    rw [hconst, List.map_const', List.sum_replicate, List.length_range,
      smul_eq_mul]

/-- Witness for C8: the index-map facts at concrete corner inputs and the
packing fact at a concrete 1x1 image. -/
theorem readback_layout_row_major_tight_witness :
    pixelByteIndex NPIXELS_DIM0 2047 2047 3 < NPIXELS_DIM0 * NPIXELS_DIM1 * 4 ∧
    ((0 : Nat) = 0 ∧ (0 : Nat) = 0 ∧ (3 : Nat) = 3) ∧
    (linearizeImage 1 1 (fun _ _ => [9, 9, 9, 9])).length = 1 * 1 * 4 :=
  ⟨readback_layout_row_major_tight.2.2.1 2047 2047 3
      (by decide) (by decide) (by decide),
   readback_layout_row_major_tight.2.2.2.1 0 0 3 0 0 3
      (by decide) (by decide) (by decide)
      (by decide) (by decide) (by decide) rfl,
   readback_layout_row_major_tight.2.2.2.2 1 1 (fun _ _ => [9, 9, 9, 9])
      (fun _ _ => rfl)⟩

/-- **C10**: every texel the shader stores has alpha channel exactly 1.0,
which quantizes to 255 in RGBA8 unorm; hence in the row-major readback
buffer of such texels, the fourth byte of every 4-byte pixel group is 255. -/
theorem alpha_byte_always_255 :
    (∀ rgb, (shaderTexel rgb).get? 3 = some 255) ∧
    (∀ (w h : Nat) (f : Nat → Nat → ℚ × ℚ × ℚ) (p : Nat), p < w * h →
      (linearizeImage w h (fun x y => shaderTexel (f x y))).get?
        (4 * p + 3) = some 255) := by
  have hround : round (255 * max 0 (min 1 (1 : ℚ))) = 255 := by norm_num
  have halpha : unorm8 1 = 255 := by
    rw [unorm8, hround]
    rfl
  constructor
  · intro rgb
    simp [shaderTexel, halpha]
  · intro w h f p hp
    rw [linearizeImage]
    rw [flatMap_get?_fixed_len (fun p => shaderTexel (f (p % w) (p / w))) 4
      (fun _ => rfl) (List.range (w * h)) p p 3
      (List.get?_range hp) (by omega)]
    simp [shaderTexel, halpha]

/-- Witness for C10: on a concrete 1x1 image the linearized buffer's fourth
byte is 255. -/
theorem alpha_byte_always_255_witness :
    (linearizeImage 1 1
      (fun x y => shaderTexel ((fun _ _ => ((0 : ℚ), (0 : ℚ), (0 : ℚ))) x y))).get?
      (4 * 0 + 3) = some 255 :=
  alpha_byte_always_255.2 1 1 (fun _ _ => (0, 0, 0)) 0 (by decide)

/-- The loop body count with an arbitrary escape oracle never exceeds the
count with no escape at all (the `break` can only shorten the loop). -/
theorem loopGo_le_noesc (esc : Nat → Bool) :
    ∀ fuel i k k', loopGo esc fuel i k ≤ loopGo (fun _ => false) fuel i k' := by
  intro fuel
  induction fuel with
  | zero => intro i k k'; exact Nat.le_refl 0
  | succ n ih =>
    intro i k k'
    simp only [loopGo]
    by_cases hi : i < one31
    · rw [if_pos hi, if_pos hi, if_neg Bool.false_ne_true]
      by_cases hesc : esc k = true
      · rw [if_pos hesc]
        exact Nat.add_le_add_left (Nat.zero_le _) 1
      · rw [if_neg hesc]
        exact Nat.add_le_add_left (ih _ _ _) 1
    · rw [if_neg hi, if_neg hi]

set_option maxRecDepth 100000

/-- Counterexample to C9 as stated: on a pixel whose iterate never escapes
(e.g. c inside the Mandelbrot set, where `length(z) > 4.0` never fires),
the loop body executes strictly more than 200 times — f32 accumulation of
`0.005` lands just below 1.0 after 200 increments. -/
theorem mandel_loop_exceeds_200 : 200 < bodyCount (fun _ => false) := by
  decide

/-- **C9 (amended)**: the escape-time loop always terminates, with at most
201 body executions (201 exactly on a never-escaping pixel, fewer when the
iterate escapes and the loop breaks early): after 200 f32 increments of
0.005 the counter is 2147481984/2^31 < 1.0, so a 201st body execution
occurs, and after 201 increments the counter reaches 2158219520/2^31 ≥ 1.0
and the loop exits. -/
theorem mandel_loop_terminates_within_201 :
    (∀ esc, bodyCount esc ≤ 201) ∧
    bodyCount (fun _ => false) = 201 ∧
    iterI 200 < one31 ∧ one31 ≤ iterI 201 := by
  refine ⟨?_, by decide, by decide, by decide⟩
  intro esc
  calc bodyCount esc ≤ loopGo (fun _ => false) 202 0 0 :=
        loopGo_le_noesc esc 202 0 0 0
    _ = 201 := by decide

end VulkanMandelbrot
